import Mathlib

/-!
Verification of the balena network-manager client library core.

Each definition is a shallow embedding of the correspondingly named item of
the Rust source: bit-sets and wire integers become Nat, fallible calls
become Except, and the remote D-Bus service is abstracted as explicit read
functions or traces passed to the embedded operation.
-/

/-! ## errors.rs: the error-chain kinds -/

/-- Embeds the `ErrorKind` variants declared in src/errors.rs via error_chain. -/
inductive ErrorKind
  | NetworkManager (info : String)
  | SSID (info : String)
  | PreSharedKey (info : String)
  | DBusAPI (info : String)
  | Service
  deriving DecidableEq, Repr

/-! ## wifi.rs: security bit-sets and the access-point security derivation -/

/-- Security::NONE of the `Security` bitflags in src/wifi.rs. -/
def SECURITY_NONE : Nat := 0x00

/-- Security::WEP. -/
def SECURITY_WEP : Nat := 0x01

/-- Security::WPA. -/
def SECURITY_WPA : Nat := 0x02

/-- Security::WPA2. -/
def SECURITY_WPA2 : Nat := 0x04

/-- Security::ENTERPRISE. -/
def SECURITY_ENTERPRISE : Nat := 0x08

/-- NM80211ApFlags::AP_FLAGS_PRIVACY. -/
def AP_FLAGS_PRIVACY : Nat := 0x0001

/-- NM80211ApSecurityFlags::AP_SEC_NONE. -/
def AP_SEC_NONE : Nat := 0x0000

/-- NM80211ApSecurityFlags::AP_SEC_KEY_MGMT_PSK. -/
def AP_SEC_KEY_MGMT_PSK : Nat := 0x0100

/-- NM80211ApSecurityFlags::AP_SEC_KEY_MGMT_802_1X. -/
def AP_SEC_KEY_MGMT_802_1X : Nat := 0x0200

/-- The `contains` test of the bitflags crate: all bits of `b` are set in `a`. -/
def bitflagsContains (a b : Nat) : Bool := a &&& b == b

/-- Embeds `get_access_point_security` (src/wifi.rs lines 198 to 229): the raw
privacy flags, WPA flags and RSN flags are ORed into a Security bit-set. -/
def get_access_point_security (flags wpa_flags rsn_flags : Nat) : Nat :=
  let security := SECURITY_NONE
  let security :=
    if bitflagsContains flags AP_FLAGS_PRIVACY ∧ wpa_flags = AP_SEC_NONE ∧
        rsn_flags = AP_SEC_NONE
    then security ||| SECURITY_WEP else security
  let security :=
    if wpa_flags ≠ AP_SEC_NONE then security ||| SECURITY_WPA else security
  let security :=
    if rsn_flags ≠ AP_SEC_NONE then security ||| SECURITY_WPA2 else security
  let security :=
    if bitflagsContains wpa_flags AP_SEC_KEY_MGMT_802_1X ∨
        bitflagsContains rsn_flags AP_SEC_KEY_MGMT_802_1X
    then security ||| SECURITY_ENTERPRISE else security
  security

lemma security_wep_iff (flags wpa_flags rsn_flags : Nat) :
    get_access_point_security flags wpa_flags rsn_flags &&& SECURITY_WEP = SECURITY_WEP ↔
      (bitflagsContains flags AP_FLAGS_PRIVACY = true ∧ wpa_flags = AP_SEC_NONE ∧
        rsn_flags = AP_SEC_NONE) := by
  simp only [get_access_point_security]
  split_ifs with h1 h2 h3 h4 <;>
    simp_all [SECURITY_NONE, SECURITY_WEP, SECURITY_WPA, SECURITY_WPA2,
      SECURITY_ENTERPRISE, AP_SEC_NONE, AP_FLAGS_PRIVACY, AP_SEC_KEY_MGMT_802_1X,
      bitflagsContains]

lemma security_wpa_iff (flags wpa_flags rsn_flags : Nat) :
    get_access_point_security flags wpa_flags rsn_flags &&& SECURITY_WPA = SECURITY_WPA ↔
      wpa_flags ≠ AP_SEC_NONE := by
  simp only [get_access_point_security]
  split_ifs with h1 h2 h3 h4 <;>
    simp_all [SECURITY_NONE, SECURITY_WEP, SECURITY_WPA, SECURITY_WPA2,
      SECURITY_ENTERPRISE, AP_SEC_NONE, AP_FLAGS_PRIVACY, AP_SEC_KEY_MGMT_802_1X,
      bitflagsContains] <;> decide

lemma security_wpa2_iff (flags wpa_flags rsn_flags : Nat) :
    get_access_point_security flags wpa_flags rsn_flags &&& SECURITY_WPA2 = SECURITY_WPA2 ↔
      rsn_flags ≠ AP_SEC_NONE := by
  simp only [get_access_point_security]
  split_ifs with h1 h2 h3 h4 <;>
    simp_all [SECURITY_NONE, SECURITY_WEP, SECURITY_WPA, SECURITY_WPA2,
      SECURITY_ENTERPRISE, AP_SEC_NONE, AP_FLAGS_PRIVACY, AP_SEC_KEY_MGMT_802_1X,
      bitflagsContains] <;> decide

lemma security_enterprise_iff (flags wpa_flags rsn_flags : Nat) :
    get_access_point_security flags wpa_flags rsn_flags &&& SECURITY_ENTERPRISE =
        SECURITY_ENTERPRISE ↔
      (bitflagsContains wpa_flags AP_SEC_KEY_MGMT_802_1X = true ∨
        bitflagsContains rsn_flags AP_SEC_KEY_MGMT_802_1X = true) := by
  simp only [get_access_point_security]
  split_ifs with h1 h2 h3 h4 <;>
    simp_all [SECURITY_NONE, SECURITY_WEP, SECURITY_WPA, SECURITY_WPA2,
      SECURITY_ENTERPRISE, AP_SEC_NONE, AP_FLAGS_PRIVACY, AP_SEC_KEY_MGMT_802_1X,
      bitflagsContains] <;> decide

lemma security_privacy_bit_only (flags wpa_flags rsn_flags g : Nat)
    (h : g &&& AP_FLAGS_PRIVACY = flags &&& AP_FLAGS_PRIVACY) :
    get_access_point_security g wpa_flags rsn_flags =
      get_access_point_security flags wpa_flags rsn_flags := by
  simp only [get_access_point_security, bitflagsContains, h]

/-- C1: the access-point security derivation ORs four independent
contributions onto NONE: WEP exactly when the privacy bit is set and both
flag sets are empty, WPA exactly when the WPA flags are non-empty, WPA2
exactly when the RSN flags are non-empty, ENTERPRISE exactly when either
flag set contains the 802.1X key-management bit; the result depends on the
privacy bit only among the AP flags; the five concrete examples of the
spec hold. -/
theorem access_point_security_spec (flags wpa_flags rsn_flags : Nat) :
    (get_access_point_security flags wpa_flags rsn_flags &&& SECURITY_WEP = SECURITY_WEP ↔
      (bitflagsContains flags AP_FLAGS_PRIVACY = true ∧ wpa_flags = AP_SEC_NONE ∧
        rsn_flags = AP_SEC_NONE)) ∧
    (get_access_point_security flags wpa_flags rsn_flags &&& SECURITY_WPA = SECURITY_WPA ↔
      wpa_flags ≠ AP_SEC_NONE) ∧
    (get_access_point_security flags wpa_flags rsn_flags &&& SECURITY_WPA2 = SECURITY_WPA2 ↔
      rsn_flags ≠ AP_SEC_NONE) ∧
    (get_access_point_security flags wpa_flags rsn_flags &&& SECURITY_ENTERPRISE =
        SECURITY_ENTERPRISE ↔
      (bitflagsContains wpa_flags AP_SEC_KEY_MGMT_802_1X = true ∨
        bitflagsContains rsn_flags AP_SEC_KEY_MGMT_802_1X = true)) ∧
    (∀ g, g &&& AP_FLAGS_PRIVACY = flags &&& AP_FLAGS_PRIVACY →
      get_access_point_security g wpa_flags rsn_flags =
        get_access_point_security flags wpa_flags rsn_flags) ∧
    get_access_point_security AP_FLAGS_PRIVACY AP_SEC_NONE AP_SEC_NONE = SECURITY_WEP ∧
    get_access_point_security 0 AP_SEC_KEY_MGMT_PSK AP_SEC_NONE = SECURITY_WPA ∧
    get_access_point_security 0 AP_SEC_NONE AP_SEC_KEY_MGMT_PSK = SECURITY_WPA2 ∧
    get_access_point_security 0 AP_SEC_KEY_MGMT_802_1X AP_SEC_NONE =
      (SECURITY_WPA ||| SECURITY_ENTERPRISE) ∧
    get_access_point_security 0 AP_SEC_NONE AP_SEC_NONE = SECURITY_NONE :=
  ⟨security_wep_iff flags wpa_flags rsn_flags,
   security_wpa_iff flags wpa_flags rsn_flags,
   security_wpa2_iff flags wpa_flags rsn_flags,
   security_enterprise_iff flags wpa_flags rsn_flags,
   fun g h => security_privacy_bit_only flags wpa_flags rsn_flags g h,
   by decide, by decide, by decide, by decide, by decide⟩

/-! ## ssid.rs: the validated SSID value type -/

/-- Embeds the owned `Ssid` of src/ssid.rs: a byte vector. -/
structure Ssid where
  vec : List Nat
  deriving DecidableEq, Repr

/-- Embeds `AsSsidSlice for [u8]` (src/ssid.rs lines 88 to 99): a byte slice
is an SSID slice exactly when its length does not exceed 32. -/
def as_ssid_slice (bytes : List Nat) : Except ErrorKind (List Nat) :=
  if bytes.length > 32 then
    Except.error (ErrorKind.SSID
      ("SSID length should not exceed 32: " ++ toString bytes.length ++ " len"))
  else
    Except.ok bytes

/-- Embeds `Ssid::from_bytes` (src/ssid.rs lines 20 to 28): validate through
`as_ssid_slice`, then take ownership of the bytes unchanged. -/
def Ssid.from_bytes (bytes : List Nat) : Except ErrorKind Ssid :=
  match as_ssid_slice bytes with
  | Except.ok _ => Except.ok (Ssid.mk bytes)
  | Except.error e => Except.error e

/-- Embeds `SsidSlice::as_bytes`: the raw bytes, unchanged. -/
def Ssid.as_bytes (s : Ssid) : List Nat := s.vec

/-- C5: constructing an Ssid from at most 32 bytes succeeds and `as_bytes`
round-trips exactly; from more than 32 bytes it fails with the dedicated
SSID error and no Ssid value is produced. -/
theorem ssid_from_bytes_spec (b : List Nat) :
    (b.length ≤ 32 → ∃ s, Ssid.from_bytes b = Except.ok s ∧ Ssid.as_bytes s = b) ∧
    (32 < b.length → ∃ m, Ssid.from_bytes b = Except.error (ErrorKind.SSID m)) := by
  constructor
  · intro h
    refine ⟨Ssid.mk b, ?_, rfl⟩
    simp [Ssid.from_bytes, as_ssid_slice, Nat.not_lt.mpr h]
  · intro h
    exact ⟨"SSID length should not exceed 32: " ++ toString b.length ++ " len",
      by simp [Ssid.from_bytes, as_ssid_slice, h]⟩

/-! ## dbus_nm.rs: password validation -/

/-- Embeds `verify_ascii_password` (src/dbus_nm.rs lines 494 to 513):
`AsciiStr::from_ascii` succeeds exactly when every character is ASCII
(code point at most 127); then the length must be at least 8 and at most
64; every violation is a PreSharedKey error. -/
def verify_ascii_password (password : String) : Except ErrorKind String :=
  if password.data.all (fun c => c.toNat ≤ 127) then
    if password.length < 8 then
      Except.error (ErrorKind.PreSharedKey
        ("Password length should be at least 8 characters: " ++
          toString password.length ++ " len"))
    else if password.length > 64 then
      Except.error (ErrorKind.PreSharedKey
        ("Password length should not exceed 64: " ++ toString password.length ++ " len"))
    else
      Except.ok password
  else
    Except.error (ErrorKind.PreSharedKey "Not an ASCII password")

lemma verify_ascii_password_ok (p : String)
    (hascii : p.data.all (fun c => c.toNat ≤ 127) = true)
    (h8 : 8 ≤ p.length) (h64 : p.length ≤ 64) :
    verify_ascii_password p = Except.ok p := by
  simp [verify_ascii_password, hascii, Nat.not_lt.mpr h8, Nat.not_lt.mpr h64]

/-- C4: the password validator accepts exactly the ASCII strings whose
length lies in [8, 64], returns the password unchanged on success, and
every rejection is the dedicated PreSharedKey error. -/
theorem verify_ascii_password_spec (p : String) :
    ((∃ r, verify_ascii_password p = Except.ok r) ↔
      (p.data.all (fun c => c.toNat ≤ 127) = true ∧ 8 ≤ p.length ∧ p.length ≤ 64)) ∧
    (∀ r, verify_ascii_password p = Except.ok r → r = p) ∧
    (∀ e, verify_ascii_password p = Except.error e →
      ∃ m, e = ErrorKind.PreSharedKey m) := by
  refine ⟨⟨?_, ?_⟩, ?_, ?_⟩
  · rintro ⟨r, hr⟩
    simp only [verify_ascii_password] at hr
    split_ifs at hr <;> simp at hr
    exact ⟨by assumption, by omega, by omega⟩
  · rintro ⟨hascii, h8, h64⟩
    exact ⟨p, verify_ascii_password_ok p hascii h8 h64⟩
  · intro r hr
    simp only [verify_ascii_password] at hr
    split_ifs at hr <;> simp at hr
    exact hr.symm
  · intro e he
    simp only [verify_ascii_password] at he
    split_ifs at he <;> simp at he
    all_goals exact ⟨_, he.symm⟩

/-! ## connection.rs and device.rs: states and the poll-with-soft-timeout wait -/

/-- Embeds `ConnectionState` (src/connection.rs lines 182 to 189). -/
inductive ConnectionState
  | Unknown
  | Activating
  | Activated
  | Deactivating
  | Deactivated
  deriving DecidableEq, Repr

/-- Embeds `DeviceState` (src/device.rs lines 189 to 204). -/
inductive DeviceState
  | Unknown
  | Unmanaged
  | Unavailable
  | Disconnected
  | Prepare
  | Config
  | NeedAuth
  | IpConfig
  | IpCheck
  | Secondaries
  | Activated
  | Deactivating
  | Failed
  deriving DecidableEq, Repr

/-- The polling loop shared verbatim by `wait` in src/connection.rs (lines
305 to 317) and src/device.rs (lines 277 to 306): sleep one second, read
the state (the read with index `total_time` models the call to get_state
on that iteration), increment the elapsed counter, and return the observed
state as soon as it equals the target or the elapsed counter has reached
the timeout. The loop runs at most `timeout` iterations, so fuel `timeout`
is never exhausted; the fuel-out branch is unreachable. -/
def waitGo {α : Type} [DecidableEq α] (read : Nat → Except String α) (target : α)
    (timeout : Nat) : Nat → Nat → Except String α
  | _, 0 => Except.error "wait fuel exhausted"
  | total_time, fuel + 1 =>
    match read total_time with
    | Except.error e => Except.error e
    | Except.ok state =>
      if state = target ∨ timeout ≤ total_time + 1 then Except.ok state
      else waitGo read target timeout (total_time + 1) fuel

/-- Embeds `wait` of src/connection.rs lines 297 to 318 and src/device.rs
lines 270 to 307: with timeout zero, one immediate read; otherwise the
one-second polling loop above. -/
def waitPoll {α : Type} [DecidableEq α] (read : Nat → Except String α) (target : α)
    (timeout : Nat) : Except String α :=
  if timeout = 0 then read 0
  else waitGo read target timeout 0 timeout

/-- The `wait` of src/connection.rs at type ConnectionState. -/
def connectionWait : (Nat → Except String ConnectionState) → ConnectionState → Nat →
    Except String ConnectionState := waitPoll

/-- The `wait` of src/device.rs at type DeviceState. -/
def deviceWait : (Nat → Except String DeviceState) → DeviceState → Nat →
    Except String DeviceState := waitPoll

lemma waitGo_char {α : Type} [DecidableEq α] (σ : Nat → α) (target : α) (T : Nat) :
    ∀ fuel t0, t0 < T → T ≤ t0 + fuel →
      ∃ n, t0 ≤ n ∧ n < T ∧
        waitGo (fun i => Except.ok (σ i)) target T t0 fuel = Except.ok (σ n) ∧
        (∀ j, t0 ≤ j → j < n → σ j ≠ target) ∧
        (σ n = target ∨ n = T - 1) := by
  intro fuel
  induction fuel with
  | zero => intro t0 h1 h2; omega
  | succ fuel ih =>
    intro t0 h1 h2
    by_cases hstop : σ t0 = target ∨ T ≤ t0 + 1
    · refine ⟨t0, le_refl t0, h1, ?_, by omega, ?_⟩
      · simp [waitGo, hstop]
      · rcases hstop with h | h
        · exact Or.inl h
        · exact Or.inr (by omega)
    · push_neg at hstop
      obtain ⟨hne, hlt⟩ := hstop
      obtain ⟨n, hn0, hnT, heq, hbefore, hlast⟩ := ih (t0 + 1) (by omega) (by omega)
      refine ⟨n, by omega, hnT, ?_, ?_, hlast⟩
      · have : ¬ (σ t0 = target ∨ T ≤ t0 + 1) := by
          push_neg
          exact ⟨hne, by omega⟩
        simp [waitGo, this]
        exact heq
      · intro j hj1 hj2
        rcases Nat.eq_or_lt_of_le hj1 with h | h
        · rw [← h]; exact hne
        · exact hbefore j (by omega) hj2

lemma waitPoll_char {α : Type} [DecidableEq α] (σ : Nat → α) (target : α) (T : Nat)
    (hT : 0 < T) :
    ∃ n, n < T ∧
      waitPoll (fun i => Except.ok (σ i)) target T = Except.ok (σ n) ∧
      (∀ j, j < n → σ j ≠ target) ∧
      (σ n = target ∨ n = T - 1) := by
  obtain ⟨n, _, hnT, heq, hbefore, hlast⟩ :=
    waitGo_char σ target T T 0 hT (by omega)
  refine ⟨n, hnT, ?_, fun j hj => hbefore j (Nat.zero_le j) hj, hlast⟩
  rw [waitPoll, if_neg (by omega)]
  exact heq

lemma waitPoll_reaches_iff {α : Type} [DecidableEq α] (σ : Nat → α) (target : α)
    (T : Nat) (hT : 0 < T) :
    waitPoll (fun i => Except.ok (σ i)) target T = Except.ok target ↔
      ∃ i, i < T ∧ σ i = target := by
  obtain ⟨n, hnT, heq, hbefore, hlast⟩ := waitPoll_char σ target T hT
  constructor
  · intro h
    rw [heq] at h
    exact ⟨n, hnT, by injection h⟩
  · rintro ⟨i, hiT, hi⟩
    rw [heq]
    rcases hlast with h | h
    · rw [h]
    · by_cases hcmp : i < n
      · exact absurd hi (hbefore i hcmp)
      · have : n ≤ i := by omega
        have : i = n := by omega
        rw [← this, hi]

/-- C2: with timeout 0 `wait` performs a single immediate read; with
timeout T > 0 it polls at most T times and returns Ok of the first
observed state equal to the target, or the last observed state when no
poll within T observes the target; it never turns the timeout into an
error, and the returned state equals the target iff some poll within the
deadline observed the target. This holds for the connection wait and for
the device wait. -/
theorem wait_soft_timeout_spec (σ : Nat → ConnectionState) (δ : Nat → DeviceState)
    (ct : ConnectionState) (dt : DeviceState) (T : Nat) (hT : 0 < T) :
    connectionWait (fun i => Except.ok (σ i)) ct 0 = Except.ok (σ 0) ∧
    deviceWait (fun i => Except.ok (δ i)) dt 0 = Except.ok (δ 0) ∧
    (∃ n, n < T ∧ connectionWait (fun i => Except.ok (σ i)) ct T = Except.ok (σ n) ∧
      (∀ j, j < n → σ j ≠ ct) ∧ (σ n = ct ∨ n = T - 1)) ∧
    (connectionWait (fun i => Except.ok (σ i)) ct T = Except.ok ct ↔
      ∃ i, i < T ∧ σ i = ct) ∧
    (∃ n, n < T ∧ deviceWait (fun i => Except.ok (δ i)) dt T = Except.ok (δ n) ∧
      (∀ j, j < n → δ j ≠ dt) ∧ (δ n = dt ∨ n = T - 1)) ∧
    (deviceWait (fun i => Except.ok (δ i)) dt T = Except.ok dt ↔
      ∃ i, i < T ∧ δ i = dt) :=
  ⟨rfl, rfl,
   waitPoll_char σ ct T hT,
   waitPoll_reaches_iff σ ct T hT,
   waitPoll_char δ dt T hT,
   waitPoll_reaches_iff δ dt T hT⟩

/-- Witness for C2 at a concrete trace: the state reaches the target on the
third poll of five. -/
theorem wait_soft_timeout_spec_witness :
    connectionWait
        (fun i => Except.ok (if i = 2 then ConnectionState.Activated
          else ConnectionState.Activating))
        ConnectionState.Activated 5 = Except.ok ConnectionState.Activated ↔
      ∃ i, i < 5 ∧ (if i = 2 then ConnectionState.Activated
          else ConnectionState.Activating) = ConnectionState.Activated :=
  (wait_soft_timeout_spec
    (fun i => if i = 2 then ConnectionState.Activated else ConnectionState.Activating)
    (fun _ => DeviceState.Activated) ConnectionState.Activated DeviceState.Activated
    5 (by decide)).2.2.2.1

/-! ## connection.rs: active-connection reverse lookup, get_state, activate -/

/-- Embeds `get_connection_active_path` (src/connection.rs lines 281 to 295):
scan the active-connection paths in order; for each, read its backing
settings path (`settings_path_of` models `get_active_connection_path`,
whose property-read errors are swallowed into None) and return the first
active path whose settings path equals this connection path. -/
def get_connection_active_path (active_paths : List String)
    (settings_path_of : String → Option String) (connection_path : String) :
    Option String :=
  match active_paths with
  | [] => none
  | active_path :: rest =>
    match settings_path_of active_path with
    | some settings_path =>
      if connection_path = settings_path then some active_path
      else get_connection_active_path rest settings_path_of connection_path
    | none => get_connection_active_path rest settings_path_of connection_path

/-- Embeds `Connection::get_state` (src/connection.rs lines 37 to 47):
resolve the active path; when one matches, read that active object state
(`state_of` models `get_connection_state`, which never fails: a property
error there already yields Unknown); when none matches, the state is
defined to be Deactivated. -/
def connection_get_state (active_paths : List String)
    (settings_path_of : String → Option String)
    (state_of : String → ConnectionState) (path : String) :
    Except String ConnectionState :=
  match get_connection_active_path active_paths settings_path_of path with
  | some active_path => Except.ok (state_of active_path)
  | none => Except.ok ConnectionState.Deactivated

/-- C6: get_state scans every active-connection path, matching each backing
settings path against this connection path; the first match supplies the
state, and when no active-connection object matches the result is
Ok Deactivated, a defined success. -/
theorem connection_get_state_spec (active_paths : List String)
    (settings_path_of : String → Option String)
    (state_of : String → ConnectionState) (path : String) :
    ((∀ a ∈ active_paths, settings_path_of a ≠ some path) →
      connection_get_state active_paths settings_path_of state_of path =
        Except.ok ConnectionState.Deactivated) ∧
    (∀ front a back, active_paths = front ++ a :: back →
      settings_path_of a = some path →
      (∀ b ∈ front, settings_path_of b ≠ some path) →
      connection_get_state active_paths settings_path_of state_of path =
        Except.ok (state_of a)) := by
  constructor
  · intro hnone
    have : get_connection_active_path active_paths settings_path_of path = none := by
      induction active_paths with
      | nil => rfl
      | cons hd tl ih =>
        have hhd := hnone hd (by simp)
        simp only [get_connection_active_path]
        cases hsp : settings_path_of hd with
        | none => exact ih fun a ha => hnone a (by simp [ha])
        | some sp =>
          show (if path = sp then some hd
            else get_connection_active_path tl settings_path_of path) = none
          rw [if_neg (by rintro rfl; exact hhd hsp)]
          exact ih fun a ha => hnone a (by simp [ha])
    simp [connection_get_state, this]
  · intro front a back hsplit hmatch hfront
    have : get_connection_active_path active_paths settings_path_of path = some a := by
      subst hsplit
      induction front with
      | nil => simp [get_connection_active_path, hmatch]
      | cons hd tl ih =>
        have hhd := hfront hd (by simp)
        simp only [List.cons_append, get_connection_active_path]
        cases hsp : settings_path_of hd with
        | none => exact ih fun b hb => hfront b (by simp [hb])
        | some sp =>
          show (if path = sp then some hd
            else get_connection_active_path (tl ++ a :: back) settings_path_of path) =
            some a
          rw [if_neg (by rintro rfl; exact hhd hsp)]
          exact ih fun b hb => hfront b (by simp [hb])
    simp [connection_get_state, this]

/-- Embeds `Connection::activate` (src/connection.rs lines 63 to 82) given
the state its initial get_state call observed. The remote service is
modelled by the trace `σ` of states the subsequent wait polls read; the
Bool in the result records whether the ActivateConnection method call was
issued (the call itself is assumed to succeed). Activated returns
immediately; Activating skips to waiting; Unknown is an error; every
other state issues the activate call and then waits. -/
def connection_activate (σ : Nat → Except String ConnectionState)
    (state : ConnectionState) (timeout : Nat) :
    Except String (Bool × ConnectionState) :=
  match state with
  | ConnectionState.Activated => Except.ok (false, ConnectionState.Activated)
  | ConnectionState.Activating =>
    (connectionWait σ ConnectionState.Activated timeout).map (fun s => (false, s))
  | ConnectionState.Unknown => Except.error "Unable to get connection state"
  | _ =>
    (connectionWait σ ConnectionState.Activated timeout).map (fun s => (true, s))

/-- C3 counterexample: in the current state Unknown — one of the "every
other current state" cases of the claim — activate does not issue the
ActivateConnection call and wait (which would return Ok (true, Activated)
on this trace); it returns an error instead. -/
theorem connection_activate_unknown_counterexample :
    connection_activate (fun _ => Except.ok ConnectionState.Activated)
        ConnectionState.Unknown 1 = Except.error "Unable to get connection state" ∧
    (connectionWait (fun _ => Except.ok ConnectionState.Activated)
        ConnectionState.Activated 1).map (fun s => (true, s)) =
      Except.ok (true, ConnectionState.Activated) ∧
    connection_activate (fun _ => Except.ok ConnectionState.Activated)
        ConnectionState.Unknown 1 ≠
      Except.ok (true, ConnectionState.Activated) := by
  refine ⟨rfl, ?_, fun h => Except.noConfusion h⟩
  rfl

/-- C3 amended: activate returns immediately with Activated when the state
is Activated; when Activating it waits without issuing the activate call;
when Unknown it returns an error without issuing the call; in the two
remaining states (Deactivating, Deactivated) it issues the
ActivateConnection call and waits for Activated. -/
theorem connection_activate_spec (σ : Nat → ConnectionState) (T : Nat) (hT : 0 < T) :
    connection_activate (fun i => Except.ok (σ i)) ConnectionState.Activated T =
      Except.ok (false, ConnectionState.Activated) ∧
    (∃ n, n < T ∧
      connection_activate (fun i => Except.ok (σ i)) ConnectionState.Activating T =
        Except.ok (false, σ n) ∧
      (∀ j, j < n → σ j ≠ ConnectionState.Activated) ∧
      (σ n = ConnectionState.Activated ∨ n = T - 1)) ∧
    connection_activate (fun i => Except.ok (σ i)) ConnectionState.Unknown T =
      Except.error "Unable to get connection state" ∧
    (∀ s, (s = ConnectionState.Deactivating ∨ s = ConnectionState.Deactivated) →
      ∃ n, n < T ∧
        connection_activate (fun i => Except.ok (σ i)) s T = Except.ok (true, σ n) ∧
        (∀ j, j < n → σ j ≠ ConnectionState.Activated) ∧
        (σ n = ConnectionState.Activated ∨ n = T - 1)) := by
  obtain ⟨n, hnT, heq, hbefore, hlast⟩ :=
    waitPoll_char σ ConnectionState.Activated T hT
  refine ⟨rfl, ⟨n, hnT, ?_, hbefore, hlast⟩, rfl, ?_⟩
  · show (connectionWait (fun i => Except.ok (σ i)) ConnectionState.Activated T).map
      (fun s => (false, s)) = Except.ok (false, σ n)
    rw [show connectionWait (fun i => Except.ok (σ i)) ConnectionState.Activated T =
      waitPoll (fun i => Except.ok (σ i)) ConnectionState.Activated T from rfl, heq]
    rfl
  · rintro s (rfl | rfl) <;>
    · refine ⟨n, hnT, ?_, hbefore, hlast⟩
      show (connectionWait (fun i => Except.ok (σ i)) ConnectionState.Activated T).map
        (fun s => (true, s)) = Except.ok (true, σ n)
      rw [show connectionWait (fun i => Except.ok (σ i)) ConnectionState.Activated T =
        waitPoll (fun i => Except.ok (σ i)) ConnectionState.Activated T from rfl, heq]
      rfl

/-- Witness for C3 at a concrete trace: from state Deactivated with a trace
that is Activated from the start, activate issues the call and returns
Ok (true, Activated). -/
theorem connection_activate_spec_witness :
    connection_activate (fun _ => Except.ok ConnectionState.Activated)
        ConnectionState.Activated 2 =
      Except.ok (false, ConnectionState.Activated) :=
  (connection_activate_spec (fun _ => ConnectionState.Activated) 2 (by decide)).1

/-! ## dbus_api.rs: the transport retry loop and typed decoding -/

/-- RETRIES_ALLOWED of src/dbus_api.rs line 9. -/
def RETRIES_ALLOWED : Nat := 10

/-- The loop of `call_with_args_retry` (src/dbus_api.rs lines 63 to 84).
`attempt n` models what the n-th `create_and_send_message` returns:
an outer error is a reply error whose name matched the caller-supplied
retry allow-list (the loop sleeps one second and retries); an outer Ok
carries the result returned immediately — the successful reply, a reply
error outside the allow-list, or a local message-construction failure.
The counter starts at 0 and the loop ends with the distinct retries
error once `retries` reaches RETRIES_ALLOWED, so the remaining allowance
is the recursion fuel. -/
def call_retry_go {M : Type} (attempt : Nat → Except String (Except String M)) :
    Nat → Nat → Except String M
  | _, 0 => Except.error ("method failed after " ++ toString RETRIES_ALLOWED ++ " retries")
  | n, fuel + 1 =>
    match attempt n with
    | Except.ok result => result
    | Except.error _ => call_retry_go attempt (n + 1) fuel

/-- Embeds `call_with_args_retry`: start with zero retries used. -/
def call_with_args_retry {M : Type} (attempt : Nat → Except String (Except String M)) :
    Except String M :=
  call_retry_go attempt 0 RETRIES_ALLOWED

/-- The error wrapper of `call_with_args` (src/dbus_api.rs lines 49 to 55):
interface, method and path context around the failure details. -/
def call_error_message (interface method path details : String) : String :=
  "D-Bus \x27" ++ interface ++ "\x27::\x27" ++ method ++
    "\x27 method call failed on \x27" ++ path ++ "\x27: " ++ details

/-- Embeds `call_with_args` (src/dbus_api.rs lines 43 to 61): delegate to
the retry loop and wrap any error with the call context. -/
def call_with_args {M : Type} (path interface method : String)
    (attempt : Nat → Except String (Except String M)) : Except String M :=
  match call_with_args_retry attempt with
  | Except.ok response => Except.ok response
  | Except.error e => Except.error (call_error_message interface method path e)

lemma call_retry_go_all_error {M : Type}
    (attempt : Nat → Except String (Except String M)) :
    ∀ fuel n, (∀ j, n ≤ j → j < n + fuel → ∃ e, attempt j = Except.error e) →
      call_retry_go attempt n fuel =
        Except.error ("method failed after " ++ toString RETRIES_ALLOWED ++ " retries") := by
  intro fuel
  induction fuel with
  | zero => intro n _; rfl
  | succ fuel ih =>
    intro n h
    obtain ⟨e, he⟩ := h n (le_refl n) (by omega)
    simp only [call_retry_go, he]
    exact ih (n + 1) fun j h1 h2 => h j (by omega) (by omega)

lemma call_retry_go_first_ok {M : Type}
    (attempt : Nat → Except String (Except String M)) :
    ∀ fuel n k inner, n ≤ k → k < n + fuel →
      (∀ j, n ≤ j → j < k → ∃ e, attempt j = Except.error e) →
      attempt k = Except.ok inner →
      call_retry_go attempt n fuel = inner := by
  intro fuel
  induction fuel with
  | zero => intro n k inner h1 h2 _ _; omega
  | succ fuel ih =>
    intro n k inner hnk hkf hbefore hok
    rcases Nat.eq_or_lt_of_le hnk with h | h
    · subst h
      simp only [call_retry_go, hok]
    · obtain ⟨e, he⟩ := hbefore n (le_refl n) h
      simp only [call_retry_go, he]
      exact ih (n + 1) k inner (by omega) (by omega)
        (fun j h1 h2 => hbefore j (by omega) h2) hok

/-- C7: the transport call attempts at most RETRIES_ALLOWED = 10
transmissions; the first attempt whose outcome is not a retryable
(allow-listed) reply error determines the result and is returned
immediately; when all 10 attempts are retryable errors the result is the
distinct retries-exhausted error; call_with_args returns a success
unchanged and wraps every error with interface, method and path context. -/
theorem call_with_retry_spec {M : Type} (path interface method : String)
    (attempt : Nat → Except String (Except String M)) :
    (∀ k, k < RETRIES_ALLOWED → (∀ j, j < k → ∃ e, attempt j = Except.error e) →
      ∀ inner, attempt k = Except.ok inner → call_with_args_retry attempt = inner) ∧
    ((∀ j, j < RETRIES_ALLOWED → ∃ e, attempt j = Except.error e) →
      call_with_args_retry attempt = Except.error "method failed after 10 retries") ∧
    (∀ r, call_with_args_retry attempt = Except.ok r →
      call_with_args path interface method attempt = Except.ok r) ∧
    (∀ e, call_with_args_retry attempt = Except.error e →
      call_with_args path interface method attempt =
        Except.error (call_error_message interface method path e)) := by
  refine ⟨?_, ?_, ?_, ?_⟩
  · intro k hk hbefore inner hok
    exact call_retry_go_first_ok attempt RETRIES_ALLOWED 0 k inner (Nat.zero_le k)
      (by omega) (fun j _ hj => hbefore j hj) hok
  · intro h
    have := call_retry_go_all_error attempt RETRIES_ALLOWED 0
      fun j h1 h2 => h j (by omega)
    rwa [show ("method failed after " ++ toString RETRIES_ALLOWED ++ " retries") =
      "method failed after 10 retries" by rfl] at this
  · intro r h
    simp [call_with_args, h]
  · intro e h
    simp [call_with_args, h]

/-- C10: the boolean variant decoder used for every property read at type
bool. The input models `value.0.as_i64()`: the wire integer when the
variant holds one, None otherwise. -/
def variant_to_bool (as_i64 : Option Int) : Option Bool :=
  as_i64.bind (fun v => some (v == 0))

/-- C10: `variant_to_bool` maps the wire integer v to true exactly when
v = 0 and to false for every nonzero v; no nonzero wire value decodes to
true. -/
theorem variant_to_bool_spec (v : Int) :
    variant_to_bool (some v) = some (decide (v = 0)) ∧
    (variant_to_bool (some v) = some true ↔ v = 0) ∧
    (v ≠ 0 → variant_to_bool (some v) = some false) ∧
    variant_to_bool none = none := by
  refine ⟨by by_cases h : v = 0 <;> simp [variant_to_bool, h], ?_, ?_, rfl⟩
  · simp [variant_to_bool]
  · intro h
    simp [variant_to_bool, h]

/-- Witness for C10: the nonzero wire value 1 decodes to false, not true. -/
theorem variant_to_bool_spec_witness :
    variant_to_bool (some 1) = some false :=
  (variant_to_bool_spec 1).2.2.1 (by decide)

/-! ## dbus_nm.rs: the connect settings dictionary -/

/-- Embeds `AccessPointCredentials` (src/wifi.rs lines 112 to 125). -/
inductive AccessPointCredentials
  | none
  | Wep (passphrase : String)
  | Wpa (passphrase : String)
  | Enterprise (identity : String) (passphrase : String)
  deriving DecidableEq, Repr

/-- A typed D-Bus settings value as `add_val` / `add_str` insert it. -/
inductive DictValue
  | str (s : String)
  | num (n : Nat)
  | bytes (b : List Nat)
  | boolean (b : Bool)
  | strList (l : List String)
  deriving DecidableEq, Repr

/-- A settings block: key to variant, as an association list (every key is
inserted once, so HashMap insertion order is the list order). -/
def VariantMap : Type := List (String × DictValue)

/-- NM_WEP_KEY_TYPE_PASSPHRASE of src/dbus_nm.rs line 33. -/
def NM_WEP_KEY_TYPE_PASSPHRASE : Nat := 2

/-- Embeds the settings-dictionary construction of
`DBusNetworkManager::connect_to_access_point` (src/dbus_nm.rs lines 190
to 272): the 802-11-wireless block always carries the raw SSID bytes of
the access point, and the credential variant decides the security blocks.
Wep and Wpa passphrases pass through `verify_ascii_password`. -/
def connect_to_access_point_settings (ssid_bytes : List Nat)
    (credentials : AccessPointCredentials) :
    Except ErrorKind (List (String × VariantMap)) :=
  let wireless : VariantMap := [("ssid", DictValue.bytes ssid_bytes)]
  match credentials with
  | AccessPointCredentials.Wep passphrase =>
    match verify_ascii_password passphrase with
    | Except.ok p =>
      Except.ok [("802-11-wireless", wireless),
        ("802-11-wireless-security",
          [("wep-key-type", DictValue.num NM_WEP_KEY_TYPE_PASSPHRASE),
           ("wep-key0", DictValue.str p)])]
    | Except.error e => Except.error e
  | AccessPointCredentials.Wpa passphrase =>
    match verify_ascii_password passphrase with
    | Except.ok p =>
      Except.ok [("802-11-wireless", wireless),
        ("802-11-wireless-security",
          [("key-mgmt", DictValue.str "wpa-psk"), ("psk", DictValue.str p)])]
    | Except.error e => Except.error e
  | AccessPointCredentials.Enterprise identity passphrase =>
    Except.ok [("802-11-wireless", wireless),
      ("802-11-wireless-security", [("key-mgmt", DictValue.str "wpa-eap")]),
      ("802-1x",
        [("eap", DictValue.strList ["peap"]), ("identity", DictValue.str identity),
         ("password", DictValue.str passphrase),
         ("phase2-auth", DictValue.str "mschapv2")])]
  | AccessPointCredentials.none => Except.ok [("802-11-wireless", wireless)]

/-- Association-list lookup over the settings blocks. -/
def settingsLookup (settings : List (String × VariantMap)) (key : String) :
    Option VariantMap :=
  match settings with
  | [] => Option.none
  | (k, v) :: rest => if k = key then some v else settingsLookup rest key

/-- Association-list lookup inside one block. -/
def blockLookup (block : VariantMap) (key : String) : Option DictValue :=
  match block with
  | [] => Option.none
  | (k, v) :: rest => if k = key then some v else blockLookup rest key

/-- C8: with Wep credentials and a valid password, connect_to_access_point
builds a settings dictionary whose 802-11-wireless-security block has
exactly the two entries wep-key-type = 2 and wep-key0 = password, with no
key-mgmt entry and no 802-1x block, while the 802-11-wireless block
carries the raw SSID bytes. -/
theorem connect_wep_settings_spec (ssid_bytes : List Nat) (pass : String)
    (hascii : pass.data.all (fun c => c.toNat ≤ 127) = true)
    (h8 : 8 ≤ pass.length) (h64 : pass.length ≤ 64) :
    ∃ settings,
      connect_to_access_point_settings ssid_bytes (AccessPointCredentials.Wep pass) =
        Except.ok settings ∧
      settingsLookup settings "802-11-wireless-security" =
        some [("wep-key-type", DictValue.num NM_WEP_KEY_TYPE_PASSPHRASE),
          ("wep-key0", DictValue.str pass)] ∧
      (∀ sec, settingsLookup settings "802-11-wireless-security" = some sec →
        blockLookup sec "key-mgmt" = Option.none ∧ sec.length = 2) ∧
      settingsLookup settings "802-1x" = Option.none ∧
      settingsLookup settings "802-11-wireless" =
        some [("ssid", DictValue.bytes ssid_bytes)] := by
  refine ⟨[("802-11-wireless", [("ssid", DictValue.bytes ssid_bytes)]),
    ("802-11-wireless-security",
      [("wep-key-type", DictValue.num NM_WEP_KEY_TYPE_PASSPHRASE),
       ("wep-key0", DictValue.str pass)])], ?_, ?_, ?_, ?_, ?_⟩
  · simp only [connect_to_access_point_settings,
      verify_ascii_password_ok pass hascii h8 h64]
  · simp [settingsLookup]
  · intro sec hsec
    simp [settingsLookup] at hsec
    subst hsec
    exact ⟨by simp [blockLookup], rfl⟩
  · simp [settingsLookup]
  · simp [settingsLookup]

/-- Witness for C8 at a concrete SSID and password. -/
theorem connect_wep_settings_spec_witness :
    ∃ settings,
      connect_to_access_point_settings [104, 105] (AccessPointCredentials.Wep "password1") =
        Except.ok settings ∧
      settingsLookup settings "802-11-wireless-security" =
        some [("wep-key-type", DictValue.num NM_WEP_KEY_TYPE_PASSPHRASE),
          ("wep-key0", DictValue.str "password1")] ∧
      (∀ sec, settingsLookup settings "802-11-wireless-security" = some sec →
        blockLookup sec "key-mgmt" = Option.none ∧ sec.length = 2) ∧
      settingsLookup settings "802-1x" = Option.none ∧
      settingsLookup settings "802-11-wireless" =
        some [("ssid", DictValue.bytes [104, 105])] :=
  connect_wep_settings_spec [104, 105] "password1" (by decide) (by decide) (by decide)

/-! ## connection.rs: connection list ordering -/

/-- Decimal digit accumulation, the core of Rust `str::parse` for an
integer type (i32 overflow is not modelled; the object-path suffixes the
service hands out are far below it). -/
def digitsToNat (acc : Nat) : List Char → Option Nat
  | [] => some acc
  | c :: rest =>
    if c.isDigit then digitsToNat (acc * 10 + (c.toNat - 48)) rest else Option.none

/-- Rust `str::parse` for an integer: an optional leading minus sign
followed by at least one decimal digit. -/
def parse_int (chars : List Char) : Option Int :=
  match chars with
  | [] => Option.none
  | c :: rest =>
    if c = Char.ofNat 45 then
      match rest with
      | [] => Option.none
      | _ => (digitsToNat 0 rest).map (fun n => -(n : Int))
    else (digitsToNat 0 (c :: rest)).map (fun n => (n : Int))

/-- The trailing segment of an object path: everything after the last
slash (the whole path when it has none), which is what
`rsplit with separator slash` at index 0 yields. -/
def trailingSegment (path : String) : List Char :=
  (path.data.reverse.takeWhile (fun c => c != Char.ofNat 47)).reverse

/-- Embeds `From for i32` on Connection (src/connection.rs lines 162 to
172): the trailing path segment parsed as an integer. The source unwraps
the parse; the None case models the panic and cannot occur on the numeric
paths the service hands out. -/
def connectionSortKey (path : String) : Option Int :=
  parse_int (trailingSegment path)

/-- The integer a connection compares by; defined on paths whose trailing
segment parses (everywhere the source does not panic). -/
def connectionOrderVal (path : String) : Int :=
  (connectionSortKey path).getD 0

/-- Embeds `get_connections` (src/connection.rs lines 205 to 217) on the
already-listed connection paths: build the connections in enumeration
order, then `connections.sort()` by the Ord instance, which compares the
parsed numeric path suffixes. Rust sort is a stable sort by that key;
insertion sort realizes it. -/
def get_connections (paths : List String) : List String :=
  List.insertionSort (fun a b => connectionOrderVal a ≤ connectionOrderVal b) paths

/-- C9: get_connections orders connections by the integer value of the
trailing path segment: paths ending in 42, 7 and 100 come back ordered
7, 42, 100 — numeric, not lexical, order. -/
theorem get_connections_numeric_order (p1 p2 p3 : String)
    (h1 : connectionSortKey p1 = some 42)
    (h2 : connectionSortKey p2 = some 7)
    (h3 : connectionSortKey p3 = some 100) :
    get_connections [p1, p2, p3] = [p2, p1, p3] := by
  simp [get_connections, List.insertionSort, List.orderedInsert,
    connectionOrderVal, h1, h2, h3]

/-- Witness for C9 on concrete settings paths: numeric suffix order beats
lexical order (lexically "100" would come first). -/
theorem get_connections_numeric_order_witness :
    get_connections ["/org/freedesktop/NetworkManager/Settings/42",
      "/org/freedesktop/NetworkManager/Settings/7",
      "/org/freedesktop/NetworkManager/Settings/100"] =
    ["/org/freedesktop/NetworkManager/Settings/7",
      "/org/freedesktop/NetworkManager/Settings/42",
      "/org/freedesktop/NetworkManager/Settings/100"] :=
  get_connections_numeric_order
    "/org/freedesktop/NetworkManager/Settings/42"
    "/org/freedesktop/NetworkManager/Settings/7"
    "/org/freedesktop/NetworkManager/Settings/100"
    (by decide) (by decide) (by decide)
